import Mathlib

/-!
Formal model of the camera-and-collision update logic of `src/Main.cpp`
(the virtual-gallery walkthrough): the camera globals declared at lines
86-123 and the two input callbacks `KeyCallback` (lines 1524-1611) and
`MouseCallback` (lines 1619-1648).  Float arithmetic is idealized as
exact real arithmetic; `glm` vector operations are transcribed
componentwise.  GLFW key and action codes are kept as their integer
values from `GLFW/glfw3.h`.
-/

open Classical

noncomputable section

/-- Componentwise real 3-vector, modelling `glm::vec3`. -/
structure Vec3 where
  x : ℝ
  y : ℝ
  z : ℝ

/-- Componentwise vector addition (`glm::vec3 operator+`). -/
def Vec3.add (a b : Vec3) : Vec3 :=
  ⟨a.x + b.x, a.y + b.y, a.z + b.z⟩

/-- Componentwise vector subtraction (`glm::vec3 operator-`). -/
def Vec3.sub (a b : Vec3) : Vec3 :=
  ⟨a.x - b.x, a.y - b.y, a.z - b.z⟩

/-- Scalar multiplication of a `glm::vec3`. -/
def Vec3.smul (c : ℝ) (v : Vec3) : Vec3 :=
  ⟨c * v.x, c * v.y, c * v.z⟩

/-- The cross product `glm::cross`. -/
def Vec3.cross (a b : Vec3) : Vec3 :=
  ⟨a.y * b.z - a.z * b.y, a.z * b.x - a.x * b.z, a.x * b.y - a.y * b.x⟩

/-- Euclidean length of a vector (`glm::length`). -/
def Vec3.length (v : Vec3) : ℝ :=
  Real.sqrt (v.x ^ 2 + v.y ^ 2 + v.z ^ 2)

/-- Normalization `glm::normalize`: the vector divided by its length. -/
def Vec3.normalize (v : Vec3) : Vec3 :=
  ⟨v.x / v.length, v.y / v.length, v.z / v.length⟩

/-- GLFW action code for a key release. -/
def GLFW_RELEASE : ℤ := 0

/-- GLFW action code for a key press. -/
def GLFW_PRESS : ℤ := 1

/-- GLFW action code for a held-key repeat. -/
def GLFW_REPEAT : ℤ := 2

/-- GLFW key code for `A`. -/
def GLFW_KEY_A : ℤ := 65

/-- GLFW key code for `D`. -/
def GLFW_KEY_D : ℤ := 68

/-- GLFW key code for `S`. -/
def GLFW_KEY_S : ℤ := 83

/-- GLFW key code for `W`. -/
def GLFW_KEY_W : ℤ := 87

/-- GLFW key code for the escape key. -/
def GLFW_KEY_ESCAPE : ℤ := 256

/-- GLFW key code for the right arrow. -/
def GLFW_KEY_RIGHT : ℤ := 262

/-- GLFW key code for the left arrow. -/
def GLFW_KEY_LEFT : ℤ := 263

/-- GLFW key code for the down arrow. -/
def GLFW_KEY_DOWN : ℤ := 264

/-- GLFW key code for the up arrow. -/
def GLFW_KEY_UP : ℤ := 265

/-- The constant world-up vector `cameraUp` (Main.cpp line 88); it is
never reassigned anywhere in the source. -/
def cameraUp : Vec3 := ⟨0, 1, 0⟩

/-- The movement step `cameraSpeed` (Main.cpp line 1526). -/
def cameraSpeed : ℝ := 0.25

/-- The mouse sensitivity factor (Main.cpp line 1633). -/
def sensitivity : ℝ := 0.1

/-- Degrees-to-radians conversion `glm::radians`. -/
def radians (d : ℝ) : ℝ := d * (Real.pi / 180)

/-- The whole mutable global state the two callbacks read and write:
`cameraPosition`, `cameraFront`, `pitch`, `yaw`, `lastX`, `lastY`,
`firstMouse`, `visibleCursor`, `previousX`, `previousZ`
(Main.cpp lines 86-123). -/
structure GalleryState where
  cameraPosition : Vec3
  cameraFront : Vec3
  pitch : ℝ
  yaw : ℝ
  lastX : ℝ
  lastY : ℝ
  firstMouse : Bool
  visibleCursor : Bool
  previousX : ℝ
  previousZ : ℝ

/-- The initial values of the globals at startup (Main.cpp lines 86-123;
`pitch`, `yaw`, `lastX`, `lastY` have static storage duration and are
zero-initialized). -/
def initState : GalleryState where
  cameraPosition := ⟨-23, -15, 0⟩
  cameraFront := ⟨1, 0, 0⟩
  pitch := 0
  yaw := 0
  lastX := 0
  lastY := 0
  firstMouse := true
  visibleCursor := false
  previousX := -23
  previousZ := 0

/-- The movement dispatch on the key code (Main.cpp lines 1527-1538):
left/A strafes by `-normalize(cross(front, up)) * (cameraSpeed / 2)`,
right/D by the opposite, up/W moves by `cameraSpeed * front`,
down/S by the opposite; any other key leaves the position unchanged. -/
def moveStep (pos front : Vec3) (key : ℤ) : Vec3 :=
  if key = GLFW_KEY_LEFT ∨ key = GLFW_KEY_A then
    Vec3.sub pos (Vec3.smul (cameraSpeed / 2) (Vec3.normalize (Vec3.cross front cameraUp)))
  else if key = GLFW_KEY_RIGHT ∨ key = GLFW_KEY_D then
    Vec3.add pos (Vec3.smul (cameraSpeed / 2) (Vec3.normalize (Vec3.cross front cameraUp)))
  else if key = GLFW_KEY_UP ∨ key = GLFW_KEY_W then
    Vec3.add pos (Vec3.smul cameraSpeed front)
  else if key = GLFW_KEY_DOWN ∨ key = GLFW_KEY_S then
    Vec3.sub pos (Vec3.smul cameraSpeed front)
  else pos

/-- The x boundary clamp (Main.cpp line 1541):
`if (abs(x) > 23) x = x / abs(x) * 23`. -/
def clampX (p : Vec3) : Vec3 :=
  if |p.x| > 23 then { p with x := p.x / |p.x| * 23 } else p

/-- The y clamp (Main.cpp line 1542): `if (y != -15) y = -15`. -/
def clampY (p : Vec3) : Vec3 :=
  if p.y ≠ -15 then { p with y := -15 } else p

/-- The z boundary clamp (Main.cpp line 1543):
`if (abs(z) > 23) z = z / abs(z) * 23`. -/
def clampZ (p : Vec3) : Vec3 :=
  if |p.z| > 23 then { p with z := p.z / |p.z| * 23 } else p

/-- One stand's collision block (Main.cpp lines 1550-1559 and its three
near-duplicates): if `(x, z)` lies in the box `[xLo, xHi] × [zLo, zHi]`,
an if/else-if chain snaps `x` to the first-listed x-face `xA` when `x`
is strictly nearer to `xA` than to the second face `xB` and the frame's
x-delta exceeds 0.12, else to `xB` symmetrically, else does the same for
`z` against the faces `zA`, `zB` with the z-delta; else does nothing.
The four source blocks are this definition at the four constant tuples
used in `keyCallback` below. -/
def resolveStand (xLo xHi zLo zHi xA xB zA zB xDiff zDiff : ℝ) (p : Vec3) : Vec3 :=
  if (xLo ≤ p.x ∧ p.x ≤ xHi) ∧ (zLo ≤ p.z ∧ p.z ≤ zHi) then
    if |p.x - xA| < |p.x - xB| ∧ xDiff > 0.12 then { p with x := xA }
    else if |p.x - xA| > |p.x - xB| ∧ xDiff > 0.12 then { p with x := xB }
    else if |p.z - zA| < |p.z - zB| ∧ zDiff > 0.12 then { p with z := zA }
    else if |p.z - zA| > |p.z - zB| ∧ zDiff > 0.12 then { p with z := zB }
    else p
  else p

/-- The four stand blocks in source order (Main.cpp lines 1549-1595):
stand 1 occupies `[-12.5, -7.5] × [7.5, 12.5]`, stand 2
`[7.5, 12.5] × [7.5, 12.5]`, stand 3 `[-12.5, -7.5] × [-12.5, -7.5]`,
stand 4 `[7.5, 12.5] × [-12.5, -7.5]`; in each, the first-listed face on
either axis is the one of magnitude 7.5 and the second of magnitude
12.5, with the block's sign.  `xDiff` and `zDiff` are computed once,
before stand 1, and shared by all four blocks, while each block reads
the position as left by the previous one. -/
def handleCollisions (xDiff zDiff : ℝ) (p : Vec3) : Vec3 :=
  let q1 := resolveStand (-12.5) (-7.5) 7.5 12.5 (-7.5) (-12.5) 7.5 12.5 xDiff zDiff p
  let q2 := resolveStand 7.5 12.5 7.5 12.5 7.5 12.5 7.5 12.5 xDiff zDiff q1
  let q3 := resolveStand (-12.5) (-7.5) (-12.5) (-7.5) (-7.5) (-12.5) (-7.5) (-12.5) xDiff zDiff q2
  resolveStand 7.5 12.5 (-12.5) (-7.5) 7.5 12.5 (-7.5) (-12.5) xDiff zDiff q3

/-- `KeyCallback` (Main.cpp lines 1524-1611): movement dispatch on the
key, then the boundary clamps, then `xDiff`/`zDiff` against
`previousX`/`previousZ` (lines 1546-1547), then the four stand blocks,
then `previousX`/`previousZ` are set to the resulting position (lines
1597-1598); finally, on a press of escape, `visibleCursor` is flipped
(lines 1600-1610; the `glfwSetInputMode` calls are external I/O).  The
`action` argument is consulted only by the escape branch. -/
def keyCallback (key action : ℤ) (s : GalleryState) : GalleryState :=
  let p0 := moveStep s.cameraPosition s.cameraFront key
  let p1 := clampZ (clampY (clampX p0))
  let p2 := handleCollisions |p1.x - s.previousX| |p1.z - s.previousZ| p1
  let s1 : GalleryState :=
    { s with cameraPosition := p2, previousX := p2.x, previousZ := p2.z }
  if action = GLFW_PRESS ∧ key = GLFW_KEY_ESCAPE then
    { s1 with visibleCursor := !s1.visibleCursor }
  else s1

/-- The front direction recomputed from yaw and pitch (Main.cpp lines
1643-1647): `normalize(cos(yaw)cos(pitch), sin(pitch), sin(yaw)cos(pitch))`
with the angles in degrees. -/
def frontOf (yaw pitch : ℝ) : Vec3 :=
  Vec3.normalize
    ⟨Real.cos (radians yaw) * Real.cos (radians pitch),
     Real.sin (radians pitch),
     Real.sin (radians yaw) * Real.cos (radians pitch)⟩

/-- `MouseCallback` (Main.cpp lines 1619-1648): on the first event the
incoming position is recorded as the baseline before the offsets are
taken, so both offsets are zero; offsets are scaled by `sensitivity`,
accumulated into yaw and pitch, pitch is clamped to `[-89, 89]` by the
two ifs at lines 1640-1641, and `cameraFront` is recomputed.  The
camera position is never touched. -/
def mouseCallback (xpos ypos : ℝ) (s : GalleryState) : GalleryState :=
  let lastX0 := if s.firstMouse then xpos else s.lastX
  let lastY0 := if s.firstMouse then ypos else s.lastY
  let xoffset := (xpos - lastX0) * sensitivity
  let yoffset := (lastY0 - ypos) * sensitivity
  let yaw1 := s.yaw + xoffset
  let pitch1 := s.pitch + yoffset
  let pitch2 := if pitch1 > 89 then 89 else pitch1
  let pitch3 := if pitch2 < -89 then -89 else pitch2
  { s with
    firstMouse := false
    lastX := xpos
    lastY := ypos
    yaw := yaw1
    pitch := pitch3
    cameraFront := frontOf yaw1 pitch3 }

/-- An input event delivered by GLFW to one of the two callbacks. -/
inductive GEvent where
  | key (key action : ℤ) : GEvent
  | mouse (xpos ypos : ℝ) : GEvent

/-- Dispatch one event to its callback. -/
def stepEvent (e : GEvent) (s : GalleryState) : GalleryState :=
  match e with
  | .key k a => keyCallback k a s
  | .mouse x y => mouseCallback x y s

/-- Deliver a list of events in order. -/
def runEvents : List GEvent → GalleryState → GalleryState
  | [], s => s
  | e :: es, s => runEvents es (stepEvent e s)

/-! Helper lemmas about the clamps. -/

lemma clampX_x_abs_le (p : Vec3) : |(clampX p).x| ≤ 23 := by
  unfold clampX
  split_ifs with h
  · have hx : p.x ≠ 0 := by
      intro h0
      rw [h0] at h
      simp at h
      linarith
    have : |p.x| ≠ 0 := abs_ne_zero.mpr hx
    rw [abs_mul, abs_div, abs_abs, div_self this]
    norm_num
  · exact le_of_not_lt h

lemma clampX_y (p : Vec3) : (clampX p).y = p.y := by
  unfold clampX; split_ifs <;> rfl

lemma clampX_z (p : Vec3) : (clampX p).z = p.z := by
  unfold clampX; split_ifs <;> rfl

lemma clampY_y (p : Vec3) : (clampY p).y = -15 := by
  unfold clampY
  split_ifs with h
  · rfl
  · simpa using h

lemma clampY_x (p : Vec3) : (clampY p).x = p.x := by
  unfold clampY; split_ifs <;> rfl

lemma clampY_z (p : Vec3) : (clampY p).z = p.z := by
  unfold clampY; split_ifs <;> rfl

lemma clampZ_z_abs_le (p : Vec3) : |(clampZ p).z| ≤ 23 := by
  unfold clampZ
  split_ifs with h
  · have hz : p.z ≠ 0 := by
      intro h0
      rw [h0] at h
      simp at h
      linarith
    have : |p.z| ≠ 0 := abs_ne_zero.mpr hz
    rw [abs_mul, abs_div, abs_abs, div_self this]
    norm_num
  · exact le_of_not_lt h

lemma clampZ_x (p : Vec3) : (clampZ p).x = p.x := by
  unfold clampZ; split_ifs <;> rfl

lemma clampZ_y (p : Vec3) : (clampZ p).y = p.y := by
  unfold clampZ; split_ifs <;> rfl

/-! Helper lemmas about a single stand block. -/

lemma resolveStand_x_mem (xLo xHi zLo zHi xA xB zA zB dx dz : ℝ) (p : Vec3) :
    (resolveStand xLo xHi zLo zHi xA xB zA zB dx dz p).x = p.x ∨
      (resolveStand xLo xHi zLo zHi xA xB zA zB dx dz p).x = xA ∨
      (resolveStand xLo xHi zLo zHi xA xB zA zB dx dz p).x = xB := by
  unfold resolveStand
  split_ifs <;> simp

lemma resolveStand_z_mem (xLo xHi zLo zHi xA xB zA zB dx dz : ℝ) (p : Vec3) :
    (resolveStand xLo xHi zLo zHi xA xB zA zB dx dz p).z = p.z ∨
      (resolveStand xLo xHi zLo zHi xA xB zA zB dx dz p).z = zA ∨
      (resolveStand xLo xHi zLo zHi xA xB zA zB dx dz p).z = zB := by
  unfold resolveStand
  split_ifs <;> simp

lemma resolveStand_y (xLo xHi zLo zHi xA xB zA zB dx dz : ℝ) (p : Vec3) :
    (resolveStand xLo xHi zLo zHi xA xB zA zB dx dz p).y = p.y := by
  unfold resolveStand
  split_ifs <;> rfl

lemma resolveStand_x_abs_le {xLo xHi zLo zHi xA xB zA zB dx dz : ℝ} {p : Vec3}
    (hA : |xA| ≤ 23) (hB : |xB| ≤ 23) (hp : |p.x| ≤ 23) :
    |(resolveStand xLo xHi zLo zHi xA xB zA zB dx dz p).x| ≤ 23 := by
  rcases resolveStand_x_mem xLo xHi zLo zHi xA xB zA zB dx dz p with h | h | h <;>
    rw [h] <;> assumption

lemma resolveStand_z_abs_le {xLo xHi zLo zHi xA xB zA zB dx dz : ℝ} {p : Vec3}
    (hA : |zA| ≤ 23) (hB : |zB| ≤ 23) (hp : |p.z| ≤ 23) :
    |(resolveStand xLo xHi zLo zHi xA xB zA zB dx dz p).z| ≤ 23 := by
  rcases resolveStand_z_mem xLo xHi zLo zHi xA xB zA zB dx dz p with h | h | h <;>
    rw [h] <;> assumption

/-! Helper lemmas about the four chained stand blocks. -/

lemma handleCollisions_x_abs_le {dx dz : ℝ} {p : Vec3} (hp : |p.x| ≤ 23) :
    |(handleCollisions dx dz p).x| ≤ 23 := by
  unfold handleCollisions
  exact resolveStand_x_abs_le (by rw [abs_le]; norm_num) (by rw [abs_le]; norm_num)
    (resolveStand_x_abs_le (by rw [abs_le]; norm_num) (by rw [abs_le]; norm_num)
      (resolveStand_x_abs_le (by rw [abs_le]; norm_num) (by rw [abs_le]; norm_num)
        (resolveStand_x_abs_le (by rw [abs_le]; norm_num) (by rw [abs_le]; norm_num) hp)))

lemma handleCollisions_z_abs_le {dx dz : ℝ} {p : Vec3} (hp : |p.z| ≤ 23) :
    |(handleCollisions dx dz p).z| ≤ 23 := by
  unfold handleCollisions
  exact resolveStand_z_abs_le (by rw [abs_le]; norm_num) (by rw [abs_le]; norm_num)
    (resolveStand_z_abs_le (by rw [abs_le]; norm_num) (by rw [abs_le]; norm_num)
      (resolveStand_z_abs_le (by rw [abs_le]; norm_num) (by rw [abs_le]; norm_num)
        (resolveStand_z_abs_le (by rw [abs_le]; norm_num) (by rw [abs_le]; norm_num) hp)))

lemma handleCollisions_y (dx dz : ℝ) (p : Vec3) :
    (handleCollisions dx dz p).y = p.y := by
  unfold handleCollisions
  rw [resolveStand_y, resolveStand_y, resolveStand_y, resolveStand_y]

/-! Projection lemmas for the two callbacks. -/

lemma keyCallback_cameraPosition (k a : ℤ) (s : GalleryState) :
    (keyCallback k a s).cameraPosition =
      handleCollisions
        |(clampZ (clampY (clampX (moveStep s.cameraPosition s.cameraFront k)))).x - s.previousX|
        |(clampZ (clampY (clampX (moveStep s.cameraPosition s.cameraFront k)))).z - s.previousZ|
        (clampZ (clampY (clampX (moveStep s.cameraPosition s.cameraFront k)))) := by
  unfold keyCallback
  split_ifs <;> rfl

lemma keyCallback_pitch (k a : ℤ) (s : GalleryState) :
    (keyCallback k a s).pitch = s.pitch := by
  unfold keyCallback; split_ifs <;> rfl

lemma keyCallback_yaw (k a : ℤ) (s : GalleryState) :
    (keyCallback k a s).yaw = s.yaw := by
  unfold keyCallback; split_ifs <;> rfl

lemma keyCallback_cameraFront (k a : ℤ) (s : GalleryState) :
    (keyCallback k a s).cameraFront = s.cameraFront := by
  unfold keyCallback; split_ifs <;> rfl

lemma mouseCallback_cameraPosition (x y : ℝ) (s : GalleryState) :
    (mouseCallback x y s).cameraPosition = s.cameraPosition := rfl

lemma mouseCallback_pitch_le (x y : ℝ) (s : GalleryState) :
    -89 ≤ (mouseCallback x y s).pitch ∧ (mouseCallback x y s).pitch ≤ 89 := by
  unfold mouseCallback
  simp only
  split_ifs <;> constructor <;> linarith

lemma keyCallback_x_abs_le (k a : ℤ) (s : GalleryState) :
    |(keyCallback k a s).cameraPosition.x| ≤ 23 := by
  rw [keyCallback_cameraPosition]
  exact handleCollisions_x_abs_le (by rw [clampZ_x, clampY_x]; exact clampX_x_abs_le _)

lemma keyCallback_z_abs_le (k a : ℤ) (s : GalleryState) :
    |(keyCallback k a s).cameraPosition.z| ≤ 23 := by
  rw [keyCallback_cameraPosition]
  exact handleCollisions_z_abs_le (clampZ_z_abs_le _)

lemma keyCallback_y_eq (k a : ℤ) (s : GalleryState) :
    (keyCallback k a s).cameraPosition.y = -15 := by
  rw [keyCallback_cameraPosition, handleCollisions_y, clampZ_y, clampY_y]

lemma resolveStand_no_move {xLo xHi zLo zHi xA xB zA zB dx dz : ℝ} {p : Vec3}
    (hdx : ¬dx > 0.12) (hdz : ¬dz > 0.12) :
    resolveStand xLo xHi zLo zHi xA xB zA zB dx dz p = p := by
  unfold resolveStand
  split_ifs with h h1 h2 h3 h4
  · exact absurd h1.2 hdx
  · exact absurd h2.2 hdx
  · exact absurd h3.2 hdz
  · exact absurd h4.2 hdz
  · rfl
  · rfl

lemma handleCollisions_no_move {dx dz : ℝ} {p : Vec3}
    (hdx : ¬dx > 0.12) (hdz : ¬dz > 0.12) :
    handleCollisions dx dz p = p := by
  unfold handleCollisions
  rw [resolveStand_no_move hdx hdz, resolveStand_no_move hdx hdz,
    resolveStand_no_move hdx hdz, resolveStand_no_move hdx hdz]

/-! Invariant lemmas over event sequences. -/

lemma runEvents_xz_abs_le (evs : List GEvent) (s : GalleryState)
    (hx : |s.cameraPosition.x| ≤ 23) (hz : |s.cameraPosition.z| ≤ 23) :
    |(runEvents evs s).cameraPosition.x| ≤ 23 ∧
      |(runEvents evs s).cameraPosition.z| ≤ 23 := by
  induction evs generalizing s with
  | nil => exact ⟨hx, hz⟩
  | cons e es ih =>
    cases e with
    | key k a => exact ih _ (keyCallback_x_abs_le k a s) (keyCallback_z_abs_le k a s)
    | mouse x y =>
        exact ih _ (by simp only [stepEvent, mouseCallback_cameraPosition]; exact hx)
          (by simp only [stepEvent, mouseCallback_cameraPosition]; exact hz)

lemma runEvents_pitch_mem (evs : List GEvent) (s : GalleryState)
    (h1 : -89 ≤ s.pitch) (h2 : s.pitch ≤ 89) :
    -89 ≤ (runEvents evs s).pitch ∧ (runEvents evs s).pitch ≤ 89 := by
  induction evs generalizing s with
  | nil => exact ⟨h1, h2⟩
  | cons e es ih =>
    cases e with
    | key k a =>
        exact ih _ (by simp only [stepEvent, keyCallback_pitch]; exact h1)
          (by simp only [stepEvent, keyCallback_pitch]; exact h2)
    | mouse x y =>
        exact ih _ (mouseCallback_pitch_le x y s).1 (mouseCallback_pitch_le x y s).2

lemma runEvents_y_eq (evs : List GEvent) (s : GalleryState)
    (hy : s.cameraPosition.y = -15) :
    (runEvents evs s).cameraPosition.y = -15 := by
  induction evs generalizing s with
  | nil => exact hy
  | cons e es ih =>
    cases e with
    | key k a => exact ih _ (keyCallback_y_eq k a s)
    | mouse x y =>
        exact ih _ (by simp only [stepEvent, mouseCallback_cameraPosition]; exact hy)

/-! The claim theorems. -/

/-- C1: starting from the initial state (camera at `(-23, -15, 0)`),
after every sequence of input events the camera's x and z coordinates
lie within `[-23, 23]`; in particular, repeatedly delivering the
move-backward key `S` never drives x below `-23`. -/
theorem camera_xz_within_room_bounds :
    (∀ evs : List GEvent,
      -23 ≤ (runEvents evs initState).cameraPosition.x ∧
        (runEvents evs initState).cameraPosition.x ≤ 23 ∧
        -23 ≤ (runEvents evs initState).cameraPosition.z ∧
        (runEvents evs initState).cameraPosition.z ≤ 23) ∧
    (∀ n : ℕ, -23 ≤
      (runEvents (List.replicate n (GEvent.key GLFW_KEY_S GLFW_PRESS))
        initState).cameraPosition.x) := by
  have hx : |initState.cameraPosition.x| ≤ 23 := by
    show |(-23 : ℝ)| ≤ 23
    rw [abs_le]
    norm_num
  have hz : |initState.cameraPosition.z| ≤ 23 := by
    show |(0 : ℝ)| ≤ 23
    rw [abs_le]
    norm_num
  have main : ∀ evs : List GEvent,
      -23 ≤ (runEvents evs initState).cameraPosition.x ∧
        (runEvents evs initState).cameraPosition.x ≤ 23 ∧
        -23 ≤ (runEvents evs initState).cameraPosition.z ∧
        (runEvents evs initState).cameraPosition.z ≤ 23 := by
    intro evs
    have h := runEvents_xz_abs_le evs initState hx hz
    have h1 := abs_le.mp h.1
    have h2 := abs_le.mp h.2
    exact ⟨h1.1, h1.2, h2.1, h2.2⟩
  exact ⟨main, fun n => (main _).1⟩

/-- C3: starting from the initial pitch of 0, after any sequence of
input events (in particular mouse-move events) the pitch lies within
`[-89, 89]` degrees. -/
theorem pitch_within_clamp_range (evs : List GEvent) :
    -89 ≤ (runEvents evs initState).pitch ∧ (runEvents evs initState).pitch ≤ 89 :=
  runEvents_pitch_mem evs initState (by show (-89 : ℝ) ≤ 0; norm_num)
    (by show (0 : ℝ) ≤ 89; norm_num)

/-- C4: the camera's y coordinate is exactly the fixed eye height `-15`
after every update from the initial state; `keyCallback` forces y to
`-15` unconditionally, and `mouseCallback` never modifies the
position. -/
theorem camera_y_fixed_eye_height :
    (∀ evs : List GEvent, (runEvents evs initState).cameraPosition.y = -15) ∧
    (∀ (k a : ℤ) (s : GalleryState), (keyCallback k a s).cameraPosition.y = -15) ∧
    (∀ (x y : ℝ) (s : GalleryState),
      (mouseCallback x y s).cameraPosition = s.cameraPosition) :=
  ⟨fun evs => runEvents_y_eq evs initState rfl,
   keyCallback_y_eq, mouseCallback_cameraPosition⟩

/-- C5: the first mouse-move event after startup only records the
baseline cursor position: yaw and pitch after it equal their values
before it. -/
theorem first_mouse_event_zero_delta (xpos ypos : ℝ) :
    (mouseCallback xpos ypos initState).yaw = initState.yaw ∧
    (mouseCallback xpos ypos initState).pitch = initState.pitch := by
  unfold mouseCallback initState
  norm_num

/-- C6: for every movement key the pre-clamp displacement is exactly
`0.25` units along the front vector (up/W adds, down/S subtracts) or
exactly `0.125 = 0.25 / 2` units along the normalized cross product of
front and up (right/D adds, left/A subtracts). -/
theorem moveStep_fixed_displacements (pos front : Vec3) :
    moveStep pos front GLFW_KEY_UP = Vec3.add pos (Vec3.smul 0.25 front) ∧
    moveStep pos front GLFW_KEY_W = Vec3.add pos (Vec3.smul 0.25 front) ∧
    moveStep pos front GLFW_KEY_DOWN = Vec3.sub pos (Vec3.smul 0.25 front) ∧
    moveStep pos front GLFW_KEY_S = Vec3.sub pos (Vec3.smul 0.25 front) ∧
    moveStep pos front GLFW_KEY_RIGHT =
      Vec3.add pos (Vec3.smul 0.125 (Vec3.normalize (Vec3.cross front cameraUp))) ∧
    moveStep pos front GLFW_KEY_D =
      Vec3.add pos (Vec3.smul 0.125 (Vec3.normalize (Vec3.cross front cameraUp))) ∧
    moveStep pos front GLFW_KEY_LEFT =
      Vec3.sub pos (Vec3.smul 0.125 (Vec3.normalize (Vec3.cross front cameraUp))) ∧
    moveStep pos front GLFW_KEY_A =
      Vec3.sub pos (Vec3.smul 0.125 (Vec3.normalize (Vec3.cross front cameraUp))) := by
  refine ⟨?_, ?_, ?_, ?_, ?_, ?_, ?_, ?_⟩ <;>
    norm_num [moveStep, cameraSpeed, GLFW_KEY_UP, GLFW_KEY_W, GLFW_KEY_DOWN, GLFW_KEY_S,
      GLFW_KEY_RIGHT, GLFW_KEY_D, GLFW_KEY_LEFT, GLFW_KEY_A]

/-- C2: for a stand whose box the post-clamp position lies in, when the
frame's x-delta exceeds 0.12 and the position is not equidistant from
the two x-faces, the block snaps x to the strictly nearer x-face and
leaves z alone; and in every case the block corrects at most one of the
two coordinates, never both.  `keyCallback` instantiates this block at
the four stand parameter tuples. -/
theorem resolveStand_snaps_to_nearer_x_face
    (xLo xHi zLo zHi xA xB zA zB xDiff zDiff : ℝ) (p : Vec3)
    (hin : (xLo ≤ p.x ∧ p.x ≤ xHi) ∧ (zLo ≤ p.z ∧ p.z ≤ zHi))
    (hdx : xDiff > 0.12) :
    (|p.x - xA| ≠ |p.x - xB| →
      resolveStand xLo xHi zLo zHi xA xB zA zB xDiff zDiff p =
        { p with x := if |p.x - xA| < |p.x - xB| then xA else xB }) ∧
    ((resolveStand xLo xHi zLo zHi xA xB zA zB xDiff zDiff p).x = p.x ∨
      (resolveStand xLo xHi zLo zHi xA xB zA zB xDiff zDiff p).z = p.z) := by
  constructor
  · intro hne
    unfold resolveStand
    rw [if_pos hin]
    rcases lt_or_gt_of_ne hne with hlt | hgt
    · rw [if_pos ⟨hlt, hdx⟩, if_pos hlt]
    · have h1 : ¬(|p.x - xA| < |p.x - xB| ∧ xDiff > 0.12) := fun hc =>
        absurd hc.1 (not_lt.mpr hgt.le)
      rw [if_neg h1, if_pos ⟨hgt, hdx⟩, if_neg (not_lt.mpr hgt.le)]
  · unfold resolveStand
    split_ifs <;> simp

/-- Witness for the C2 theorem: the camera at `(-8, -15, 10)` is inside
stand 1's box with an x-delta of 0.2, and x snaps to the nearer face. -/
theorem resolveStand_snaps_witness :
    resolveStand (-12.5) (-7.5) 7.5 12.5 (-7.5) (-12.5) 7.5 12.5 0.2 0 ⟨-8, -15, 10⟩ =
      { (⟨-8, -15, 10⟩ : Vec3) with
        x := if |(-8 : ℝ) - (-7.5)| < |(-8 : ℝ) - (-12.5)| then -7.5 else -12.5 } :=
  (resolveStand_snaps_to_nearer_x_face (-12.5) (-7.5) 7.5 12.5 (-7.5) (-12.5) 7.5 12.5
      0.2 0 ⟨-8, -15, 10⟩ (by norm_num) (by norm_num)).1
    (by norm_num [abs_of_nonpos, abs_of_nonneg])

/-- C8: a press of escape flips `visibleCursor` and, when the boundary
invariants (`x`, `z` within bounds, `y` at eye height) and the
previous-position invariants hold on entry, leaves the camera position,
yaw, pitch, and front vector unchanged. -/
theorem escape_toggles_cursor_only (s : GalleryState)
    (hx : |s.cameraPosition.x| ≤ 23) (hz : |s.cameraPosition.z| ≤ 23)
    (hy : s.cameraPosition.y = -15)
    (hpx : s.previousX = s.cameraPosition.x) (hpz : s.previousZ = s.cameraPosition.z) :
    (keyCallback GLFW_KEY_ESCAPE GLFW_PRESS s).cameraPosition = s.cameraPosition ∧
    (keyCallback GLFW_KEY_ESCAPE GLFW_PRESS s).yaw = s.yaw ∧
    (keyCallback GLFW_KEY_ESCAPE GLFW_PRESS s).pitch = s.pitch ∧
    (keyCallback GLFW_KEY_ESCAPE GLFW_PRESS s).cameraFront = s.cameraFront ∧
    (keyCallback GLFW_KEY_ESCAPE GLFW_PRESS s).visibleCursor = !s.visibleCursor := by
  have hmove : moveStep s.cameraPosition s.cameraFront GLFW_KEY_ESCAPE = s.cameraPosition := by
    norm_num [moveStep, GLFW_KEY_ESCAPE, GLFW_KEY_LEFT, GLFW_KEY_A, GLFW_KEY_RIGHT,
      GLFW_KEY_D, GLFW_KEY_UP, GLFW_KEY_W, GLFW_KEY_DOWN, GLFW_KEY_S]
  have hcx : clampX s.cameraPosition = s.cameraPosition := by
    unfold clampX
    rw [if_neg (not_lt.mpr hx)]
  have hcy : clampY s.cameraPosition = s.cameraPosition := by
    unfold clampY
    rw [if_neg (not_not_intro hy)]
  have hcz : clampZ s.cameraPosition = s.cameraPosition := by
    unfold clampZ
    rw [if_neg (not_lt.mpr hz)]
  have hdx : ¬|s.cameraPosition.x - s.previousX| > 0.12 := by
    rw [hpx, sub_self, abs_zero]
    norm_num
  have hdz : ¬|s.cameraPosition.z - s.previousZ| > 0.12 := by
    rw [hpz, sub_self, abs_zero]
    norm_num
  have hpos : (keyCallback GLFW_KEY_ESCAPE GLFW_PRESS s).cameraPosition = s.cameraPosition := by
    rw [keyCallback_cameraPosition, hmove, hcx, hcy, hcz, handleCollisions_no_move hdx hdz]
  have hvis : (keyCallback GLFW_KEY_ESCAPE GLFW_PRESS s).visibleCursor = !s.visibleCursor := by
    simp only [keyCallback]
    rfl
  exact ⟨hpos, keyCallback_yaw _ _ _, keyCallback_pitch _ _ _,
    keyCallback_cameraFront _ _ _, hvis⟩

/-- Witness for the C8 theorem at the initial state. -/
theorem escape_toggle_witness :
    (keyCallback GLFW_KEY_ESCAPE GLFW_PRESS initState).cameraPosition =
        initState.cameraPosition ∧
    (keyCallback GLFW_KEY_ESCAPE GLFW_PRESS initState).yaw = initState.yaw ∧
    (keyCallback GLFW_KEY_ESCAPE GLFW_PRESS initState).pitch = initState.pitch ∧
    (keyCallback GLFW_KEY_ESCAPE GLFW_PRESS initState).cameraFront =
        initState.cameraFront ∧
    (keyCallback GLFW_KEY_ESCAPE GLFW_PRESS initState).visibleCursor =
        !initState.visibleCursor :=
  escape_toggles_cursor_only initState
    (by show |(-23 : ℝ)| ≤ 23; rw [abs_le]; norm_num)
    (by show |(0 : ℝ)| ≤ 23; rw [abs_le]; norm_num) rfl rfl rfl

/-- C10: the divisions `x / abs(x)` and `z / abs(z)` in the boundary
clamp run only under the guards `abs(x) > 23` and `abs(z) > 23`, where
the divisor is nonzero, and there the assignment equals directly
assigning the sign of the coordinate times 23. -/
theorem boundary_clamp_div_guarded (p : Vec3) :
    (|p.x| > 23 → p.x ≠ 0 ∧ clampX p = { p with x := if 0 < p.x then 23 else -23 }) ∧
    (|p.z| > 23 → p.z ≠ 0 ∧ clampZ p = { p with z := if 0 < p.z then 23 else -23 }) := by
  have key : ∀ x : ℝ, |x| > 23 → x ≠ 0 ∧ x / |x| * 23 = if 0 < x then 23 else -23 := by
    intro x h
    have hx : x ≠ 0 := by
      intro h0
      rw [h0, abs_zero] at h
      linarith
    refine ⟨hx, ?_⟩
    rcases hx.lt_or_lt with hneg | hpos
    · rw [abs_of_neg hneg, if_neg (not_lt.mpr hneg.le), div_neg, div_self hx]
      norm_num
    · rw [abs_of_pos hpos, if_pos hpos, div_self hx, one_mul]
  constructor
  · intro h
    refine ⟨(key p.x h).1, ?_⟩
    unfold clampX
    rw [if_pos h, (key p.x h).2]
  · intro h
    refine ⟨(key p.z h).1, ?_⟩
    unfold clampZ
    rw [if_pos h, (key p.z h).2]

/-- Witness for the C10 theorem at `(30, 0, -42)`: both guards hold. -/
theorem boundary_clamp_div_witness :
    ((30 : ℝ) ≠ 0 ∧ clampX ⟨30, 0, -42⟩ =
        { (⟨30, 0, -42⟩ : Vec3) with x := if (0 : ℝ) < 30 then 23 else -23 }) ∧
    ((-42 : ℝ) ≠ 0 ∧ clampZ ⟨30, 0, -42⟩ =
        { (⟨30, 0, -42⟩ : Vec3) with z := if (0 : ℝ) < -42 then 23 else -23 }) :=
  ⟨(boundary_clamp_div_guarded ⟨30, 0, -42⟩).1
      (by show |(30 : ℝ)| > 23; rw [abs_of_nonneg] <;> norm_num),
   (boundary_clamp_div_guarded ⟨30, 0, -42⟩).2
      (by show |(-42 : ℝ)| > 23; rw [abs_of_nonpos] <;> norm_num)⟩

/-- C9: `keyCallback` ignores the action argument for movement keys, so
a movement key displaces the camera on press, repeat, and release
alike; delivering press-then-release of the forward key from the
initial state therefore applies the 0.25 step twice. -/
theorem movement_keys_ignore_action :
    (∀ k : ℤ,
      k ∈ ([GLFW_KEY_LEFT, GLFW_KEY_A, GLFW_KEY_RIGHT, GLFW_KEY_D, GLFW_KEY_UP,
            GLFW_KEY_W, GLFW_KEY_DOWN, GLFW_KEY_S] : List ℤ) →
      ∀ (a a' : ℤ) (s : GalleryState), keyCallback k a s = keyCallback k a' s) ∧
    (keyCallback GLFW_KEY_W GLFW_RELEASE
        (keyCallback GLFW_KEY_W GLFW_PRESS initState)).cameraPosition.x = -22.5 := by
  constructor
  · intro k hk a a' s
    have hk256 : k ≠ GLFW_KEY_ESCAPE := by
      simp only [List.mem_cons, List.not_mem_nil, or_false] at hk
      rcases hk with rfl | rfl | rfl | rfl | rfl | rfl | rfl | rfl <;> decide
    simp only [keyCallback]
    rw [if_neg fun hc => hk256 hc.2, if_neg fun hc => hk256 hc.2]
  · norm_num [keyCallback, moveStep, clampX, clampY, clampZ, handleCollisions, resolveStand,
      initState, Vec3.add, Vec3.smul, cameraSpeed, GLFW_PRESS, GLFW_RELEASE, GLFW_KEY_W,
      GLFW_KEY_UP, GLFW_KEY_DOWN, GLFW_KEY_S, GLFW_KEY_A, GLFW_KEY_D, GLFW_KEY_LEFT,
      GLFW_KEY_RIGHT, GLFW_KEY_ESCAPE, abs_of_nonpos, abs_of_nonneg]

/-- Witness for the C9 theorem: press and release of `W` agree from the
initial state. -/
theorem movement_keys_ignore_action_witness :
    keyCallback GLFW_KEY_W GLFW_PRESS initState =
      keyCallback GLFW_KEY_W GLFW_RELEASE initState :=
  movement_keys_ignore_action.1 GLFW_KEY_W (by decide) GLFW_PRESS GLFW_RELEASE initState

lemma radians_add_180 (y : ℝ) : radians (y + 180) = radians y + Real.pi := by
  unfold radians
  ring

lemma length_neg_xz (a b c : ℝ) :
    Vec3.length ⟨-a, b, -c⟩ = Vec3.length ⟨a, b, c⟩ := by
  unfold Vec3.length
  ring_nf

lemma normalize_neg_xz (a b c : ℝ) :
    Vec3.normalize ⟨-a, b, -c⟩ =
      ⟨-(Vec3.normalize ⟨a, b, c⟩).x, (Vec3.normalize ⟨a, b, c⟩).y,
        -(Vec3.normalize ⟨a, b, c⟩).z⟩ := by
  unfold Vec3.normalize
  rw [length_neg_xz]
  simp [neg_div]

lemma frontOf_yaw_add_180 (y p : ℝ) :
    frontOf (y + 180) p =
      ⟨-(frontOf y p).x, (frontOf y p).y, -(frontOf y p).z⟩ := by
  have hc : Real.cos (radians (y + 180)) = -Real.cos (radians y) := by
    rw [radians_add_180, Real.cos_add_pi]
  have hs : Real.sin (radians (y + 180)) = -Real.sin (radians y) := by
    rw [radians_add_180, Real.sin_add_pi]
  unfold frontOf
  rw [hc, hs, neg_mul, neg_mul]
  exact normalize_neg_xz _ _ _

lemma mouseCallback_closed_form (s : GalleryState) (xpos ypos : ℝ)
    (hfm : s.firstMouse = false) (hyp : ypos = s.lastY)
    (hp1 : -89 ≤ s.pitch) (hp2 : s.pitch ≤ 89) :
    mouseCallback xpos ypos s =
      { s with
        firstMouse := false
        lastX := xpos
        lastY := ypos
        yaw := s.yaw + (xpos - s.lastX) * sensitivity
        pitch := s.pitch
        cameraFront := frontOf (s.yaw + (xpos - s.lastX) * sensitivity) s.pitch } := by
  simp only [mouseCallback, hfm, Bool.false_eq_true, if_false]
  have h0 : (s.lastY - ypos) * sensitivity = 0 := by
    rw [hyp, sub_self, zero_mul]
  rw [h0, add_zero, if_neg (not_lt.mpr hp2), if_neg (not_lt.mpr hp1)]

/-- C7: two mouse-move events with zero y-offsets whose scaled x-offsets
sum to 180 degrees of yaw negate the x and z components of the
resulting front vector relative to the front computed from the yaw and
pitch before them, leave its pitch-determined y component unchanged,
and leave the pitch itself unchanged. -/
theorem yaw_180_reverses_front (s : GalleryState) (x1 y1 x2 y2 : ℝ)
    (hfm : s.firstMouse = false)
    (hp1 : -89 ≤ s.pitch) (hp2 : s.pitch ≤ 89)
    (hy1 : y1 = s.lastY) (hy2 : y2 = y1)
    (hsum : (x2 - s.lastX) * sensitivity = 180) :
    (mouseCallback x2 y2 (mouseCallback x1 y1 s)).cameraFront =
      ⟨-(frontOf s.yaw s.pitch).x, (frontOf s.yaw s.pitch).y,
        -(frontOf s.yaw s.pitch).z⟩ ∧
    (mouseCallback x2 y2 (mouseCallback x1 y1 s)).pitch = s.pitch := by
  rw [mouseCallback_closed_form s x1 y1 hfm hy1 hp1 hp2]
  rw [mouseCallback_closed_form
    { s with
      firstMouse := false
      lastX := x1
      lastY := y1
      yaw := s.yaw + (x1 - s.lastX) * sensitivity
      pitch := s.pitch
      cameraFront := frontOf (s.yaw + (x1 - s.lastX) * sensitivity) s.pitch }
    x2 y2 rfl hy2 hp1 hp2]
  have hyaw : s.yaw + (x1 - s.lastX) * sensitivity + (x2 - x1) * sensitivity =
      s.yaw + 180 := by
    rw [← hsum]
    ring
  constructor
  · show frontOf (s.yaw + (x1 - s.lastX) * sensitivity + (x2 - x1) * sensitivity)
        s.pitch = _
    rw [hyaw]
    exact frontOf_yaw_add_180 s.yaw s.pitch
  · rfl

/-- Witness for the C7 theorem: from yaw 0, pitch 0, baseline cursor x
0, two events at x = 900 and x = 1800 sum to a 180-degree yaw. -/
theorem yaw_180_reverses_front_witness :
    (mouseCallback 1800 0 (mouseCallback 900 0
        ⟨⟨-23, -15, 0⟩, ⟨1, 0, 0⟩, 0, 0, 0, 0, false, false, -23, 0⟩)).cameraFront =
      ⟨-(frontOf 0 0).x, (frontOf 0 0).y, -(frontOf 0 0).z⟩ ∧
    (mouseCallback 1800 0 (mouseCallback 900 0
        ⟨⟨-23, -15, 0⟩, ⟨1, 0, 0⟩, 0, 0, 0, 0, false, false, -23, 0⟩)).pitch = 0 :=
  yaw_180_reverses_front ⟨⟨-23, -15, 0⟩, ⟨1, 0, 0⟩, 0, 0, 0, 0, false, false, -23, 0⟩
    900 0 1800 0 rfl (by norm_num) (by norm_num) rfl rfl
    (by show ((1800 : ℝ) - 0) * sensitivity = 180; norm_num [sensitivity])

end
